import Mathlib

/-
Verification of the Drop lifecycle and claim subsystem of the
too-digital-upload-api repository (src/handlers/drops.rs, src/models.rs,
src/db.rs), as a shallow embedding: the SQLite tables `drops` and
`drop_claims` become lists of rows, the per-drop blob directory becomes a
list of drop ids, and each HTTP handler / background job becomes a pure
state-passing function returning the new database state together with its
result.  Machine integers (Rust i64/i32) are modelled as Int; SQL UPDATE
statements become maps over the row list guarded by the statement's WHERE
clause, and `rows_affected` is the number of rows matching that clause.
-/

namespace DropsApi

-- Status constants for a Drop, from `models.rs` (`pub mod drop_status`).
namespace drop_status

def SCHEDULED : Int := 0

def ACTIVE : Int := 1

def ENDED : Int := 2

def PURGED : Int := 3

end drop_status

/-- One row of the `drops` table (struct `Drop` in `models.rs`; schema in
`db.rs`, where `drop_id` is the PRIMARY KEY). -/
structure Drop where
  drop_id : String
  vendor_stable_id : String
  artist_stable_id : Option String
  artist_name : String
  title : String
  description : Option String
  cover_object_key : Option String
  audio_object_key : String
  audio_mime : String
  audio_size_bytes : Int
  audio_sha256 : String
  start_at : Int
  end_at : Int
  max_claims : Int
  claimed_count : Int
  status : Int
  env : String
  run_id : Option String
  created_at : Int
  updated_at : Int
  ended_at : Option Int
  purged_at : Option Int
deriving Repr, DecidableEq

/-- One row of the `drop_claims` table (struct `DropClaim` in `models.rs`;
the schema declares `claim_id` PRIMARY KEY and `UNIQUE(drop_id, user_id)`). -/
structure DropClaim where
  claim_id : String
  drop_id : String
  user_id : String
  device_id_hash : Option String
  claimed_at : Int
deriving Repr, DecidableEq

/-- A row of the external `vendors` table, reduced to the two columns the
Drop subsystem reads (`SELECT 1 FROM vendors WHERE stable_id = ? AND
is_alive = 1` in `create_drop`). -/
structure Vendor where
  stable_id : String
  is_alive : Int
deriving Repr, DecidableEq

/-- The persistent state the Drop subsystem touches: the two tables, the
set of per-drop blob directories under `{base_data_dir}/drops/` (keyed by
drop id: `create_drop` writes `drops/{drop_id}/...`, purging removes the
whole `drops/{drop_id}` directory), and the configured public base URL
(`AppState.vps_base_url`). -/
structure DB where
  vendors : List Vendor
  drops : List Drop
  drop_claims : List DropClaim
  blobs : List String
  vps_base_url : String
deriving Repr, DecidableEq

/-- The distinct error responses produced via `error_response` in
`drops.rs`.  `dbError` stands for any failing sqlx statement (mapped to a
500 "DB error: ..." response); `fileReadError` for a failing blob read. -/
inductive DropError where
  | dropNotFound
  | dropEnded
  | notStarted
  | expired
  | soldOut
  | alreadyClaimed
  | tokenRequired
  | invalidToken
  | vendorNotFound (vendor : String)
  | missingField (field : String)
  | dbError
  | fileReadError
deriving Repr, DecidableEq

instance {ε α : Type} [DecidableEq ε] [DecidableEq α] :
    DecidableEq (Except ε α) := fun a b =>
  match a, b with
  | .ok x, .ok y => decidable_of_iff (x = y) (by simp)
  | .error x, .error y => decidable_of_iff (x = y) (by simp)
  | .ok _, .error _ => isFalse (fun h => Except.noConfusion h)
  | .error _, .ok _ => isFalse (fun h => Except.noConfusion h)

/-- HTTP status code attached to each error by the handlers in `drops.rs`. -/
def statusCode : DropError → Nat
  | .dropNotFound => 404
  | .dropEnded => 400
  | .notStarted => 400
  | .expired => 400
  | .soldOut => 400
  | .alreadyClaimed => 400
  | .tokenRequired => 401
  | .invalidToken => 401
  | .vendorNotFound _ => 400
  | .missingField _ => 400
  | .dbError => 500
  | .fileReadError => 500

/-- Error message string attached to each error by the handlers in
`drops.rs` (the `dbError`/`fileReadError` messages interpolate the
underlying I/O error and are abbreviated here). -/
def errorMessage : DropError → String
  | .dropNotFound => "Drop not found"
  | .dropEnded => "Drop has ended"
  | .notStarted => "Drop has not started yet"
  | .expired => "Drop has expired"
  | .soldOut => "No more claims available"
  | .alreadyClaimed => "Already claimed"
  | .tokenRequired => "Token required"
  | .invalidToken => "Invalid token"
  | .vendorNotFound v => "Vendor not found: " ++ v
  | .missingField f => f ++ " is required"
  | .dbError => "DB error"
  | .fileReadError => "File read error"

/-- WHERE clause of the shared expiry UPDATE (`end_at <= now AND status IN
(SCHEDULED, ACTIVE)`), used by the lazy expiry in `list_drops` and by the
`expire_drops` background job. -/
def expireMatch (now : Int) (d : Drop) : Bool :=
  decide (d.end_at ≤ now) &&
    (d.status == drop_status.SCHEDULED || d.status == drop_status.ACTIVE)

/-- Row effect of the lazy-expiry UPDATE in `list_drops` (`SET status =
ENDED, ended_at = now`; note this statement does not touch `updated_at`). -/
def lazyExpireRow (now : Int) (d : Drop) : Drop :=
  if expireMatch now d then
    { d with status := drop_status.ENDED, ended_at := some now }
  else d

/-- Row effect of the `expire_drops` UPDATE (`SET status = ENDED, ended_at
= now, updated_at = now`). -/
def expireRow (now : Int) (d : Drop) : Drop :=
  if expireMatch now d then
    { d with status := drop_status.ENDED, ended_at := some now,
             updated_at := now }
  else d

/-- GET /api/vendors/:vendor_stable_id/drops (`list_drops` in `drops.rs`):
first runs the lazy-expiry UPDATE over the whole table, then selects the
vendor's rows, filtered by exact status when `status_filter` is given and
excluding PURGED rows otherwise.  The `ORDER BY created_at DESC` of the
source only permutes the result and is not modelled. -/
def list_drops (now : Int) (vendor_stable_id : String)
    (status_filter : Option Int) (db : DB) : DB × List Drop :=
  let db1 : DB := { db with drops := db.drops.map (lazyExpireRow now) }
  let rows :=
    match status_filter with
    | some s => db1.drops.filter
        (fun d => d.vendor_stable_id == vendor_stable_id && d.status == s)
    | none => db1.drops.filter
        (fun d => d.vendor_stable_id == vendor_stable_id &&
          !(d.status == drop_status.PURGED))
  (db1, rows)

/-- GET /api/drops/:drop_id (`get_drop` in `drops.rs`): a plain
`SELECT * FROM drops WHERE drop_id = ?` with a 404 on no row; it performs
no update whatsoever. -/
def get_drop (drop_id : String) (db : DB) : DB × Except DropError Drop :=
  (db,
    match db.drops.find? (fun d => d.drop_id == drop_id) with
    | some d => .ok d
    | none => .error .dropNotFound)

/-- Background job `expire_drops` in `drops.rs`: one UPDATE transitioning
every due SCHEDULED/ACTIVE row to ENDED; returns the new state and
`rows_affected`. -/
def expire_drops (now : Int) (db : DB) : DB × Nat :=
  ({ db with drops := db.drops.map (expireRow now) },
   (db.drops.filter (expireMatch now)).length)

/-- Metadata of the uploaded `audio` multipart field in `create_drop`:
its client-supplied filename and content type, its byte length, and the
hex SHA-256 of its bytes.  The hash value is carried as data: `drops.rs`
computes it with `compute_sha256` over the uploaded bytes, and no claim
verified here depends on properties of the hash function itself. -/
structure AudioUpload where
  filename : Option String
  mime : Option String
  size_bytes : Int
  sha256 : String
deriving Repr, DecidableEq

/-- Metadata of the optional `cover` multipart field in `create_drop`. -/
structure CoverUpload where
  filename : Option String
deriving Repr, DecidableEq

/-- The multipart form fields collected by the field loop of `create_drop`
(lines 161-238 of `drops.rs`): text fields that were absent, empty where
emptiness matters, or unparsable as i64 stay `none`; `env` defaults to
"devnet". -/
structure CreateDropForm where
  vendor_stable_id : Option String
  artist_stable_id : Option String
  artist_name : Option String
  title : Option String
  description : Option String
  start_at : Option Int
  end_at : Option Int
  max_claims : Option Int
  env : String
  audio : Option AudioUpload
  cover : Option CoverUpload
deriving Repr, DecidableEq

/-- Final fragment of a character list split at '.', i.e. the text after
the last dot, or the whole input when it contains none — exactly what
Rust's `split('.').last()` yields on the corresponding string (that
iterator always produces a final fragment, so a dotless name is its own
"extension", and a trailing dot yields the empty fragment). -/
def splitLastFragment : List Char → List Char → List Char
  | [], acc => acc
  | c :: rest, acc =>
      if c = '.' then splitLastFragment rest []
      else splitLastFragment rest (acc ++ [c])

/-- Extension extraction `filename.and_then(split('.').last()).unwrap_or`
from `create_drop`: the default applies only when no filename was
supplied. -/
def lastExt (filename : Option String) (dflt : String) : String :=
  match filename with
  | none => dflt
  | some f => String.mk (splitLastFragment f.data [])

/-- MIME type guessed from the audio extension when the multipart part
carried no content type (`create_drop`, lines 303-313). -/
def guessMime (ext : String) : String :=
  if ext == "flac" then "audio/flac"
  else if ext == "wav" then "audio/wav"
  else if ext == "ogg" then "audio/ogg"
  else if ext == "aac" then "audio/aac"
  else if ext == "m4a" then "audio/mp4"
  else "audio/mpeg"

/-- POST /api/drops (`create_drop` in `drops.rs`): required-field checks in
source order, vendor existence check, blob directory creation and audio
(and optional cover) write, then the INSERT.  The blob write happens before
the INSERT, so a primary-key conflict on `drop_id` (a failing INSERT,
surfaced as a 500) still leaves the written blobs behind.  On success the
inserted row is returned (the source re-SELECTs it by its fresh id). -/
def create_drop (now : Int) (drop_id : String) (form : CreateDropForm)
    (db : DB) : DB × Except DropError Drop :=
  match form.vendor_stable_id with
  | none => (db, .error (.missingField "vendor_stable_id"))
  | some vendor_stable_id =>
  match form.artist_name with
  | none => (db, .error (.missingField "artist_name"))
  | some artist_name =>
  match form.title with
  | none => (db, .error (.missingField "title"))
  | some title =>
  match form.end_at with
  | none => (db, .error (.missingField "end_at"))
  | some end_at =>
  match form.max_claims with
  | none => (db, .error (.missingField "max_claims"))
  | some max_claims =>
  match form.audio with
  | none => (db, .error (.missingField "audio file"))
  | some audio =>
  match db.vendors.find?
      (fun v => v.stable_id == vendor_stable_id && v.is_alive == 1) with
  | none => (db, .error (.vendorNotFound vendor_stable_id))
  | some _ =>
    let db1 : DB := { db with blobs := db.blobs ++ [drop_id] }
    let audio_ext := lastExt audio.filename "mp3"
    let audio_object_key := drop_id ++ "/audio." ++ audio_ext
    let audio_mime := audio.mime.getD (guessMime audio_ext)
    let cover_object_key :=
      form.cover.map (fun c => drop_id ++ "/cover." ++ lastExt c.filename "jpg")
    let start_at := form.start_at.getD now
    let status :=
      if start_at ≤ now then drop_status.ACTIVE else drop_status.SCHEDULED
    if (db1.drops.find? (fun d => d.drop_id == drop_id)).isSome then
      (db1, .error .dbError)
    else
      let d : Drop :=
        { drop_id := drop_id
          vendor_stable_id := vendor_stable_id
          artist_stable_id := form.artist_stable_id
          artist_name := artist_name
          title := title
          description := form.description
          cover_object_key := cover_object_key
          audio_object_key := audio_object_key
          audio_mime := audio_mime
          audio_size_bytes := audio.size_bytes
          audio_sha256 := audio.sha256
          start_at := start_at
          end_at := end_at
          max_claims := max_claims
          claimed_count := 0
          status := status
          env := form.env
          run_id := none
          created_at := now
          updated_at := now
          ended_at := none
          purged_at := none }
      ({ db1 with drops := db1.drops ++ [d] }, .ok d)

/-- Row effect of the `claimed_count` UPDATE in `claim_drop`
(`SET claimed_count = claimed_count + 1, updated_at = ? WHERE
drop_id = ?`). -/
def claimIncRow (now : Int) (drop_id : String) (d : Drop) : Drop :=
  if d.drop_id == drop_id then
    { d with claimed_count := d.claimed_count + 1, updated_at := now }
  else d

/-- Replacement of every non-overlapping occurrence of `pat` by `rep`,
scanning left to right — the behavior of Rust's `str::replace`, which
`claim_drop` uses to derive the public host from the configured base URL
(`state.vps_base_url.replace("/nft", "")`).  The fuel argument
(instantiated with the length of the scanned text) only makes the
recursion structural, so the function evaluates by kernel reduction; it
never runs out, since every step consumes at least one character.  An
empty pattern (never passed by the code) is treated as matching
nowhere. -/
def replaceAux (pat rep : List Char) : Nat → List Char → List Char
  | _, [] => []
  | 0, s => s
  | fuel + 1, c :: rest =>
      if pat ≠ [] ∧ pat.isPrefixOf (c :: rest) = true then
        rep ++ replaceAux pat rep fuel ((c :: rest).drop pat.length)
      else
        c :: replaceAux pat rep fuel rest

/-- Rust's `str::replace` over Lean strings. -/
def rustReplace (s pat rep : String) : String :=
  String.mk (replaceAux pat.data rep.data s.data.length s.data)

/-- Successful response body of `claim_drop` (`ClaimDropResponse` in
`models.rs`, minus the constant `success: true` field). -/
structure ClaimOk where
  claim_id : String
  drop_id : String
  download_url : String
  expires_at : Int
  audio_sha256 : String
  audio_size_bytes : Int
deriving Repr, DecidableEq

/-- POST /api/drops/:drop_id/claim (`claim_drop` in `drops.rs`).  Checks in
source order: drop exists, status not ENDED/PURGED, `now >= start_at`,
`now < end_at`, `claimed_count < max_claims`, no existing claim for
`(drop_id, user_id)`; then INSERTs the claim row and afterwards UPDATEs the
drop's `claimed_count` and `updated_at` — two separate statements with no
transaction.  `claim_id` is the freshly generated UUID.  `insertOk` and
`updateOk` model whether those two sqlx `execute` calls succeed; a `false`
corresponds to the statement returning `Err`, which the handler maps to a
500 response at that point (failures of the read-only SELECTs also return
500 with no state change and are not separately modelled). -/
def claim_drop (now : Int) (drop_id user_id : String)
    (device_id_hash : Option String) (claim_id : String)
    (insertOk updateOk : Bool) (db : DB) : DB × Except DropError ClaimOk :=
  match db.drops.find? (fun d => d.drop_id == drop_id) with
  | none => (db, .error .dropNotFound)
  | some drop =>
    if drop.status = drop_status.ENDED ∨ drop.status = drop_status.PURGED then
      (db, .error .dropEnded)
    else if now < drop.start_at then
      (db, .error .notStarted)
    else if drop.end_at ≤ now then
      (db, .error .expired)
    else if drop.max_claims ≤ drop.claimed_count then
      (db, .error .soldOut)
    else if (db.drop_claims.find?
        (fun c => c.drop_id == drop_id && c.user_id == user_id)).isSome then
      (db, .error .alreadyClaimed)
    else if !insertOk then
      (db, .error .dbError)
    else
      let db1 : DB := { db with drop_claims := db.drop_claims ++
        [{ claim_id := claim_id, drop_id := drop_id, user_id := user_id,
           device_id_hash := device_id_hash, claimed_at := now }] }
      if !updateOk then
        (db1, .error .dbError)
      else
        let db2 : DB := { db1 with drops := db1.drops.map (claimIncRow now drop_id) }
        (db2, .ok
          { claim_id := claim_id
            drop_id := drop_id
            download_url := rustReplace db.vps_base_url "/nft" "" ++
              "/api/drops/" ++ drop_id ++ "/download?token=" ++ claim_id
            expires_at := drop.end_at
            audio_sha256 := drop.audio_sha256
            audio_size_bytes := drop.audio_size_bytes })

/-- Successful response of `download_drop`: the streamed file's headers
(the body is the stored blob's bytes, which the model does not carry). -/
structure DownloadOk where
  content_type : String
  content_disposition : String
deriving Repr, DecidableEq

/-- GET /api/drops/:drop_id/download (`download_drop` in `drops.rs`):
requires the `token` query parameter (else 401), looks up a claim with
`claim_id = token AND drop_id = ?` (else 401 "Invalid token"), fetches the
drop row with `fetch_one` (a missing row is a DB error, i.e. 500 — never a
404), rejects `now >= end_at` with 400 "Drop has expired", and otherwise
reads and streams the blob (500 if the per-drop directory is gone).  The
drop's `status` column is never consulted. -/
def download_drop (now : Int) (drop_id : String) (token : Option String)
    (db : DB) : DB × Except DropError DownloadOk :=
  (db,
    match token with
    | none => .error .tokenRequired
    | some tok =>
      match db.drop_claims.find?
          (fun c => c.claim_id == tok && c.drop_id == drop_id) with
      | none => .error .invalidToken
      | some _ =>
        match db.drops.find? (fun d => d.drop_id == drop_id) with
        | none => .error .dbError
        | some drop =>
          if drop.end_at ≤ now then .error .expired
          else if db.blobs.contains drop.drop_id then
            .ok { content_type := drop.audio_mime,
                  content_disposition :=
                    "attachment; filename=\x22" ++ drop.title ++ "\x22" }
          else .error .fileReadError)

/-- WHERE clause of the per-id UPDATE in `batch_end_drops` and of the
force-end UPDATE in `batch_purge_drops`: the row must match the id, belong
to the named vendor, and still be SCHEDULED or ACTIVE. -/
def batchEndMatch (vendor_stable_id drop_id : String) (d : Drop) : Bool :=
  d.drop_id == drop_id && d.vendor_stable_id == vendor_stable_id &&
    (d.status == drop_status.SCHEDULED || d.status == drop_status.ACTIVE)

/-- Row effect of the UPDATE in `batch_end_drops` (`SET status = ENDED,
ended_at = now, updated_at = now` under `batchEndMatch`). -/
def batchEndRow (now : Int) (vendor_stable_id drop_id : String) (d : Drop) :
    Drop :=
  if batchEndMatch vendor_stable_id drop_id d then
    { d with status := drop_status.ENDED, ended_at := some now,
             updated_at := now }
  else d

/-- Loop body of `batch_end_drops` for one drop id: the guarded UPDATE to
ENDED; the reported Bool is `rows_affected() > 0`. -/
def batchEndOne (now : Int) (vendor_stable_id drop_id : String) (db : DB) :
    DB × Bool :=
  ({ db with drops := db.drops.map (batchEndRow now vendor_stable_id drop_id) },
   decide (0 < (db.drops.filter (batchEndMatch vendor_stable_id drop_id)).length))

/-- POST /api/vendors/:vendor_stable_id/drops/batch_end (`batch_end_drops`
in `drops.rs`): per-id guarded UPDATEs, outcomes reported independently.
The source accumulates outcomes in a HashMap keyed by id; the model keeps
the insertion-ordered association list. -/
def batch_end_drops (now : Int) (vendor_stable_id : String)
    (drop_ids : List String) (db : DB) : DB × List (String × Bool) :=
  drop_ids.foldl (fun acc drop_id =>
    let r := batchEndOne now vendor_stable_id drop_id acc.1
    (r.1, acc.2 ++ [(drop_id, r.2)])) (db, [])

/-- Row effect of the force-end UPDATE in `batch_purge_drops` (`SET status
= ENDED, ended_at = COALESCE(ended_at, now), updated_at = now` under
`batchEndMatch`). -/
def forceEndRow (now : Int) (vendor_stable_id drop_id : String) (d : Drop) :
    Drop :=
  if batchEndMatch vendor_stable_id drop_id d then
    { d with status := drop_status.ENDED,
             ended_at := some (d.ended_at.getD now), updated_at := now }
  else d

/-- Row effect of the final UPDATE of both purge paths (`SET status =
PURGED, purged_at = now, updated_at = now WHERE drop_id = ?` — guarded by
the id alone). -/
def purgeRow (now : Int) (drop_id : String) (d : Drop) : Drop :=
  if d.drop_id == drop_id then
    { d with status := drop_status.PURGED, purged_at := some now,
             updated_at := now }
  else d

/-- Loop body of `batch_purge_drops` for one drop id: first the force-end
UPDATE (same guard as batch_end, but `ended_at = COALESCE(ended_at, now)`),
then a SELECT of the row by `(drop_id, vendor_stable_id)`; if absent the id
reports false, otherwise the per-drop blob directory is removed and a final
UPDATE sets PURGED, `purged_at = now`, `updated_at = now` guarded only by
`drop_id` (no vendor or status condition), reporting
`rows_affected() > 0`. -/
def batchPurgeOne (now : Int) (vendor_stable_id drop_id : String) (db : DB) :
    DB × Bool :=
  let db1 : DB :=
    { db with drops := db.drops.map (forceEndRow now vendor_stable_id drop_id) }
  match db1.drops.find?
      (fun d => d.drop_id == drop_id && d.vendor_stable_id == vendor_stable_id) with
  | none => (db1, false)
  | some _ =>
    let db2 : DB := { db1 with blobs := db1.blobs.filter (fun b => b != drop_id) }
    let affected := (db2.drops.filter (fun d => d.drop_id == drop_id)).length
    ({ db2 with drops := db2.drops.map (purgeRow now drop_id) },
     decide (0 < affected))

/-- POST /api/vendors/:vendor_stable_id/drops/batch_purge
(`batch_purge_drops` in `drops.rs`). -/
def batch_purge_drops (now : Int) (vendor_stable_id : String)
    (drop_ids : List String) (db : DB) : DB × List (String × Bool) :=
  drop_ids.foldl (fun acc drop_id =>
    let r := batchPurgeOne now vendor_stable_id drop_id acc.1
    (r.1, acc.2 ++ [(drop_id, r.2)])) (db, [])

/-- Selection predicate of `purge_ended_drops`: `status = ENDED AND
ended_at IS NOT NULL AND ended_at <= now - grace_seconds`. -/
def purgeTargetMatch (cutoff : Int) (d : Drop) : Bool :=
  d.status == drop_status.ENDED &&
    (match d.ended_at with
     | some e => decide (e ≤ cutoff)
     | none => false)

/-- Loop body of `purge_ended_drops` for one target drop: remove the blob
directory, then UPDATE the row (by `drop_id` only) to PURGED. -/
def purgeOne (now : Int) (drop_id : String) (db : DB) : DB :=
  { db with
    blobs := db.blobs.filter (fun b => b != drop_id)
    drops := db.drops.map (purgeRow now drop_id) }

/-- Background job `purge_ended_drops` in `drops.rs`: selects the due ENDED
rows once up front, then purges each in turn; returns the processed
count. -/
def purge_ended_drops (now grace_seconds : Int) (db : DB) : DB × Nat :=
  let targets := db.drops.filter (purgeTargetMatch (now - grace_seconds))
  (targets.foldl (fun acc d => purgeOne now d.drop_id acc) db, targets.length)

/-- One transition of the persistent state: any handler invocation or
background-job run, at an arbitrary time instant and with arbitrary
request parameters (including arbitrary success of the two fallible write
statements inside `claim_drop`), plus arbitrary changes to the external
vendors registry, which other parts of the application mutate. -/
inductive Step : DB → DB → Prop where
  | list (now : Int) (vendor_stable_id : String) (status_filter : Option Int)
      (db : DB) : Step db (list_drops now vendor_stable_id status_filter db).1
  | get (drop_id : String) (db : DB) : Step db (get_drop drop_id db).1
  | create (now : Int) (drop_id : String) (form : CreateDropForm) (db : DB) :
      Step db (create_drop now drop_id form db).1
  | claim (now : Int) (drop_id user_id : String)
      (device_id_hash : Option String) (claim_id : String)
      (insertOk updateOk : Bool) (db : DB) :
      Step db (claim_drop now drop_id user_id device_id_hash claim_id
        insertOk updateOk db).1
  | download (now : Int) (drop_id : String) (token : Option String) (db : DB) :
      Step db (download_drop now drop_id token db).1
  | batchEnd (now : Int) (vendor_stable_id : String) (drop_ids : List String)
      (db : DB) : Step db (batch_end_drops now vendor_stable_id drop_ids db).1
  | batchPurge (now : Int) (vendor_stable_id : String) (drop_ids : List String)
      (db : DB) : Step db (batch_purge_drops now vendor_stable_id drop_ids db).1
  | expire (now : Int) (db : DB) : Step db (expire_drops now db).1
  | purgeSweep (now grace_seconds : Int) (db : DB) :
      Step db (purge_ended_drops now grace_seconds db).1
  | vendorRegistry (vendors : List Vendor) (db : DB) :
      Step db { db with vendors := vendors }

/-- States reachable from a fresh database (`db.rs` creates empty `drops`
and `drop_claims` tables; no blobs exist under the drops directory) with
an arbitrary initial vendors registry and configured base URL. -/
inductive Reachable : DB → Prop where
  | init (vendors : List Vendor) (vps_base_url : String) :
      Reachable { vendors := vendors, drops := [], drop_claims := [],
                  blobs := [], vps_base_url := vps_base_url }
  | step {db db' : DB} (h : Reachable db) (hs : Step db db') : Reachable db'

/-- Row-level well-formedness maintained by every operation: the claim
counter is a nonnegative count bounded by the capacity (clamped at 0,
because `create_drop` never validates `max_claims` and accepts negative
capacities), and the status column only ever holds one of the four
`drop_status` constants. -/
def DropWF (d : Drop) : Prop :=
  0 ≤ d.claimed_count ∧ d.claimed_count ≤ max d.max_claims 0 ∧
    (d.status = drop_status.SCHEDULED ∨ d.status = drop_status.ACTIVE ∨
     d.status = drop_status.ENDED ∨ d.status = drop_status.PURGED)

/-- Table-level invariant: `drop_id` is a primary key (no two rows share
it) and every row is well-formed. -/
def Inv (db : DB) : Prop :=
  (db.drops.map Drop.drop_id).Nodup ∧ ∀ d ∈ db.drops, DropWF d

/-- Every drop row of the first state survives into the second with the
same id and a status at least as far along SCHEDULED < ACTIVE < ENDED <
PURGED. -/
def DropsMono (db db' : DB) : Prop :=
  ∀ d ∈ db.drops, ∃ d' ∈ db'.drops,
    d'.drop_id = d.drop_id ∧ d.status ≤ d'.status

/-- A fresh database holding one alive vendor, as `db.rs` would create it. -/
def db0 : DB :=
  { vendors := [{ stable_id := "V1", is_alive := 1 }], drops := [],
    drop_claims := [], blobs := [], vps_base_url := "https://host/nft" }

/-- A fully populated creation form for an immediately active drop with
capacity 1 and a one-hour window starting at epoch second 1000. -/
def okForm : CreateDropForm :=
  { vendor_stable_id := some "V1", artist_stable_id := none,
    artist_name := some "Artist", title := some "Song",
    description := none, start_at := some 1000, end_at := some 4600,
    max_claims := some 1, env := "devnet",
    audio := some { filename := some "track.mp3", mime := some "audio/mpeg",
                    size_bytes := 3, sha256 := "abc123" },
    cover := none }

/-- State after creating the capacity-1 drop DROP_A at epoch second 1000. -/
def dbA : DB := (create_drop 1000 "DROP_A" okForm db0).1

/-- State after u1 successfully claims DROP_A (claim id c1). -/
def dbB : DB := (claim_drop 1000 "DROP_A" "u1" none "c1" true true dbA).1

/-- The creation form with a negative capacity, which `create_drop` never
rejects. -/
def badForm : CreateDropForm := { okForm with max_claims := some (-1) }

/-- State after creating DROP_B with `max_claims = -1`. -/
def dbBad : DB := (create_drop 1000 "DROP_B" badForm db0).1

/-- The creation form whose `end_at` (epoch 500) already lies in the past
at creation time 1000. -/
def expForm : CreateDropForm := { okForm with end_at := some 500 }

/-- State after creating the already-expired drop DROP_E at epoch second
1000 — `create_drop` still stamps it ACTIVE, since it looks only at
`start_at`. -/
def dbE : DB := (create_drop 1000 "DROP_E" expForm db0).1

/-- The row `create_drop` inserts for DROP_A (spelled out). -/
def dropA : Drop :=
  { drop_id := "DROP_A", vendor_stable_id := "V1", artist_stable_id := none,
    artist_name := "Artist", title := "Song", description := none,
    cover_object_key := none, audio_object_key := "DROP_A/audio.mp3",
    audio_mime := "audio/mpeg", audio_size_bytes := 3,
    audio_sha256 := "abc123", start_at := 1000, end_at := 4600,
    max_claims := 1, claimed_count := 0, status := drop_status.ACTIVE,
    env := "devnet", run_id := none, created_at := 1000, updated_at := 1000,
    ended_at := none, purged_at := none }

/-- State after administratively batch-ending DROP_A at epoch second 2000,
while u1's claim c1 is on file and the blob still exists. -/
def dbEnd : DB := (batch_end_drops 2000 "V1" ["DROP_A"] dbB).1

/-- The DROP_A row inside `dbEnd`: claimed once, administratively ENDED at
2000, its natural `end_at` 4600 still in the future. -/
def dropAEnd : Drop :=
  { dropA with claimed_count := 1, status := drop_status.ENDED,
               ended_at := some 2000, updated_at := 2000 }

/-- State after batch-purging DROP_A at epoch second 2000. -/
def dbP : DB := (batch_purge_drops 2000 "V1" ["DROP_A"] dbA).1

/-- The DROP_A row inside `dbP`: force-ended and purged at 2000. -/
def dropAP : Drop :=
  { dropA with status := drop_status.PURGED, ended_at := some 2000,
               purged_at := some 2000, updated_at := 2000 }

theorem dropsMono_refl (db : DB) : DropsMono db db :=
  fun d hd => ⟨d, hd, rfl, le_refl _⟩

theorem dropsMono_of_drops_eq {db db' : DB} (h : db.drops = db'.drops) :
    DropsMono db db' :=
  fun d hd => ⟨d, h ▸ hd, rfl, le_refl _⟩

theorem dropsMono_trans {a b c : DB} (h1 : DropsMono a b)
    (h2 : DropsMono b c) : DropsMono a c := by
  intro d hd
  obtain ⟨d1, hd1, hid1, hst1⟩ := h1 d hd
  obtain ⟨d2, hd2, hid2, hst2⟩ := h2 d1 hd1
  exact ⟨d2, hd2, hid2.trans hid1, le_trans hst1 hst2⟩

theorem nodup_keys_map {l : List Drop} {f : Drop → Drop}
    (hid : ∀ d ∈ l, (f d).drop_id = d.drop_id)
    (h : (l.map Drop.drop_id).Nodup) :
    ((l.map f).map Drop.drop_id).Nodup := by
  rw [List.map_map]
  have he : l.map (Drop.drop_id ∘ f) = l.map Drop.drop_id :=
    List.map_congr_left (fun a ha => hid a ha)
  rw [he]; exact h

theorem wf_map {l : List Drop} {f : Drop → Drop}
    (hwf : ∀ d ∈ l, DropWF d → DropWF (f d))
    (h : ∀ d ∈ l, DropWF d) : ∀ d ∈ l.map f, DropWF d := by
  intro d hd
  obtain ⟨a, ha, rfl⟩ := List.mem_map.mp hd
  exact hwf a ha (h a ha)

theorem mono_map {l : List Drop} {f : Drop → Drop}
    (hid : ∀ d ∈ l, (f d).drop_id = d.drop_id)
    (hst : ∀ d ∈ l, d.status ≤ (f d).status) :
    ∀ d ∈ l, ∃ d' ∈ l.map f, d'.drop_id = d.drop_id ∧ d.status ≤ d'.status :=
  fun d hd => ⟨f d, List.mem_map_of_mem f hd, hid d hd, hst d hd⟩

/-- With distinct keys, `find?` by a member's key returns exactly that
member. -/
theorem find?_key_of_mem {l : List Drop}
    (hnd : (l.map Drop.drop_id).Nodup) {d : Drop} (hd : d ∈ l)
    {i : String} (hi : d.drop_id = i) :
    l.find? (fun x => x.drop_id == i) = some d := by
  subst hi
  cases hfind : l.find? (fun x => x.drop_id == d.drop_id) with
  | none =>
      have hall := List.find?_eq_none.mp hfind d hd
      simp at hall
  | some x =>
      have hx : x ∈ l := List.mem_of_find?_eq_some hfind
      have hpx := List.find?_some hfind
      have hxd : x = d :=
        List.inj_on_of_nodup_map hnd hx hd (by simpa using hpx)
      rw [hxd]

theorem status_le_ended_of_expireMatch {now : Int} {d : Drop}
    (h : expireMatch now d = true) : d.status ≤ drop_status.ENDED := by
  unfold expireMatch at h
  simp [drop_status.SCHEDULED, drop_status.ACTIVE] at h
  unfold drop_status.ENDED
  rcases h.2 with h2 | h2 <;> omega

theorem status_le_ended_of_batchEndMatch {v i : String} {d : Drop}
    (h : batchEndMatch v i d = true) : d.status ≤ drop_status.ENDED := by
  unfold batchEndMatch at h
  simp [drop_status.SCHEDULED, drop_status.ACTIVE] at h
  unfold drop_status.ENDED
  rcases h.2 with h2 | h2 <;> omega

theorem status_le_purged_of_wf {d : Drop} (h : DropWF d) :
    d.status ≤ drop_status.PURGED := by
  rcases h.2.2 with h3 | h3 | h3 | h3 <;>
    simp [h3, drop_status.SCHEDULED, drop_status.ACTIVE, drop_status.ENDED,
      drop_status.PURGED]

theorem lazyExpireRow_id (now : Int) (d : Drop) :
    (lazyExpireRow now d).drop_id = d.drop_id := by
  unfold lazyExpireRow; split <;> rfl

theorem lazyExpireRow_wf (now : Int) (d : Drop) (h : DropWF d) :
    DropWF (lazyExpireRow now d) := by
  unfold lazyExpireRow; split
  · exact ⟨h.1, h.2.1, Or.inr (Or.inr (Or.inl rfl))⟩
  · exact h

theorem lazyExpireRow_status (now : Int) (d : Drop) :
    d.status ≤ (lazyExpireRow now d).status := by
  unfold lazyExpireRow; split
  · next hm => exact status_le_ended_of_expireMatch hm
  · exact le_refl _

theorem expireRow_id (now : Int) (d : Drop) :
    (expireRow now d).drop_id = d.drop_id := by
  unfold expireRow; split <;> rfl

theorem expireRow_wf (now : Int) (d : Drop) (h : DropWF d) :
    DropWF (expireRow now d) := by
  unfold expireRow; split
  · exact ⟨h.1, h.2.1, Or.inr (Or.inr (Or.inl rfl))⟩
  · exact h

theorem expireRow_status (now : Int) (d : Drop) :
    d.status ≤ (expireRow now d).status := by
  unfold expireRow; split
  · next hm => exact status_le_ended_of_expireMatch hm
  · exact le_refl _

theorem batchEndRow_id (now : Int) (v i : String) (d : Drop) :
    (batchEndRow now v i d).drop_id = d.drop_id := by
  unfold batchEndRow; split <;> rfl

theorem batchEndRow_wf (now : Int) (v i : String) (d : Drop) (h : DropWF d) :
    DropWF (batchEndRow now v i d) := by
  unfold batchEndRow; split
  · exact ⟨h.1, h.2.1, Or.inr (Or.inr (Or.inl rfl))⟩
  · exact h

theorem batchEndRow_status (now : Int) (v i : String) (d : Drop) :
    d.status ≤ (batchEndRow now v i d).status := by
  unfold batchEndRow; split
  · next hm => exact status_le_ended_of_batchEndMatch hm
  · exact le_refl _

theorem forceEndRow_id (now : Int) (v i : String) (d : Drop) :
    (forceEndRow now v i d).drop_id = d.drop_id := by
  unfold forceEndRow; split <;> rfl

theorem forceEndRow_wf (now : Int) (v i : String) (d : Drop) (h : DropWF d) :
    DropWF (forceEndRow now v i d) := by
  unfold forceEndRow; split
  · exact ⟨h.1, h.2.1, Or.inr (Or.inr (Or.inl rfl))⟩
  · exact h

theorem forceEndRow_status (now : Int) (v i : String) (d : Drop) :
    d.status ≤ (forceEndRow now v i d).status := by
  unfold forceEndRow; split
  · next hm => exact status_le_ended_of_batchEndMatch hm
  · exact le_refl _

theorem purgeRow_id (now : Int) (i : String) (d : Drop) :
    (purgeRow now i d).drop_id = d.drop_id := by
  unfold purgeRow; split <;> rfl

theorem purgeRow_wf (now : Int) (i : String) (d : Drop) (h : DropWF d) :
    DropWF (purgeRow now i d) := by
  unfold purgeRow; split
  · exact ⟨h.1, h.2.1, Or.inr (Or.inr (Or.inr rfl))⟩
  · exact h

theorem purgeRow_status (now : Int) (i : String) (d : Drop) (h : DropWF d) :
    d.status ≤ (purgeRow now i d).status := by
  unfold purgeRow; split
  · exact status_le_purged_of_wf h
  · exact le_refl _

theorem claimIncRow_id (now : Int) (i : String) (d : Drop) :
    (claimIncRow now i d).drop_id = d.drop_id := by
  unfold claimIncRow; split <;> rfl

theorem claimIncRow_status (now : Int) (i : String) (d : Drop) :
    d.status ≤ (claimIncRow now i d).status := by
  unfold claimIncRow; split <;> exact le_refl _

theorem inv_list_drops (now : Int) (v : String) (sf : Option Int) (db : DB)
    (h : Inv db) :
    Inv (list_drops now v sf db).1 ∧ DropsMono db (list_drops now v sf db).1 :=
  ⟨⟨nodup_keys_map (fun d _ => lazyExpireRow_id now d) h.1,
    wf_map (fun d _ => lazyExpireRow_wf now d) h.2⟩,
   mono_map (fun d _ => lazyExpireRow_id now d)
     (fun d _ => lazyExpireRow_status now d)⟩

theorem inv_expire_drops (now : Int) (db : DB) (h : Inv db) :
    Inv (expire_drops now db).1 ∧ DropsMono db (expire_drops now db).1 :=
  ⟨⟨nodup_keys_map (fun d _ => expireRow_id now d) h.1,
    wf_map (fun d _ => expireRow_wf now d) h.2⟩,
   mono_map (fun d _ => expireRow_id now d)
     (fun d _ => expireRow_status now d)⟩

theorem inv_batchEndOne (now : Int) (v i : String) (db : DB) (h : Inv db) :
    Inv (batchEndOne now v i db).1 ∧ DropsMono db (batchEndOne now v i db).1 :=
  ⟨⟨nodup_keys_map (fun d _ => batchEndRow_id now v i d) h.1,
    wf_map (fun d _ => batchEndRow_wf now v i d) h.2⟩,
   mono_map (fun d _ => batchEndRow_id now v i d)
     (fun d _ => batchEndRow_status now v i d)⟩

theorem inv_purgeOne (now : Int) (i : String) (db : DB) (h : Inv db) :
    Inv (purgeOne now i db) ∧ DropsMono db (purgeOne now i db) :=
  ⟨⟨nodup_keys_map (fun d _ => purgeRow_id now i d) h.1,
    wf_map (fun d _ => purgeRow_wf now i d) h.2⟩,
   mono_map (fun d _ => purgeRow_id now i d)
     (fun d hd => purgeRow_status now i d (h.2 d hd))⟩

theorem inv_batchPurgeOne (now : Int) (v i : String) (db : DB) (h : Inv db) :
    Inv (batchPurgeOne now v i db).1 ∧
      DropsMono db (batchPurgeOne now v i db).1 := by
  unfold batchPurgeOne
  have h1 : Inv { db with drops := db.drops.map (forceEndRow now v i) } :=
    ⟨nodup_keys_map (fun d _ => forceEndRow_id now v i d) h.1,
     wf_map (fun d _ => forceEndRow_wf now v i d) h.2⟩
  have m1 : DropsMono db { db with drops := db.drops.map (forceEndRow now v i) } :=
    mono_map (fun d _ => forceEndRow_id now v i d)
      (fun d _ => forceEndRow_status now v i d)
  cases hf : ({ db with drops := db.drops.map (forceEndRow now v i) } : DB).drops.find?
      (fun d => d.drop_id == i && d.vendor_stable_id == v) with
  | none => simpa [hf] using ⟨h1, m1⟩
  | some x =>
      simp only [hf]
      refine ⟨⟨nodup_keys_map (fun d _ => purgeRow_id now i d) h1.1,
        wf_map (fun d _ => purgeRow_wf now i d) h1.2⟩, ?_⟩
      exact dropsMono_trans m1
        (mono_map (fun d _ => purgeRow_id now i d)
          (fun d hd => purgeRow_status now i d (h1.2 d hd)))

theorem inv_batch_end_aux (now : Int) (v : String) :
    ∀ (ids : List String) (db : DB) (res : List (String × Bool)), Inv db →
      Inv (ids.foldl (fun acc drop_id =>
          let r := batchEndOne now v drop_id acc.1
          (r.1, acc.2 ++ [(drop_id, r.2)])) (db, res)).1 ∧
        DropsMono db (ids.foldl (fun acc drop_id =>
          let r := batchEndOne now v drop_id acc.1
          (r.1, acc.2 ++ [(drop_id, r.2)])) (db, res)).1 := by
  intro ids
  induction ids with
  | nil => intro db res h; exact ⟨h, dropsMono_refl db⟩
  | cons i rest ih =>
      intro db res h
      have h1 := inv_batchEndOne now v i db h
      have h2 := ih (batchEndOne now v i db).1
        (res ++ [(i, (batchEndOne now v i db).2)]) h1.1
      exact ⟨h2.1, dropsMono_trans h1.2 h2.2⟩

theorem inv_batch_end_drops (now : Int) (v : String) (ids : List String)
    (db : DB) (h : Inv db) :
    Inv (batch_end_drops now v ids db).1 ∧
      DropsMono db (batch_end_drops now v ids db).1 :=
  inv_batch_end_aux now v ids db [] h

theorem inv_batch_purge_aux (now : Int) (v : String) :
    ∀ (ids : List String) (db : DB) (res : List (String × Bool)), Inv db →
      Inv (ids.foldl (fun acc drop_id =>
          let r := batchPurgeOne now v drop_id acc.1
          (r.1, acc.2 ++ [(drop_id, r.2)])) (db, res)).1 ∧
        DropsMono db (ids.foldl (fun acc drop_id =>
          let r := batchPurgeOne now v drop_id acc.1
          (r.1, acc.2 ++ [(drop_id, r.2)])) (db, res)).1 := by
  intro ids
  induction ids with
  | nil => intro db res h; exact ⟨h, dropsMono_refl db⟩
  | cons i rest ih =>
      intro db res h
      have h1 := inv_batchPurgeOne now v i db h
      have h2 := ih (batchPurgeOne now v i db).1
        (res ++ [(i, (batchPurgeOne now v i db).2)]) h1.1
      exact ⟨h2.1, dropsMono_trans h1.2 h2.2⟩

theorem inv_batch_purge_drops (now : Int) (v : String) (ids : List String)
    (db : DB) (h : Inv db) :
    Inv (batch_purge_drops now v ids db).1 ∧
      DropsMono db (batch_purge_drops now v ids db).1 :=
  inv_batch_purge_aux now v ids db [] h

theorem inv_purge_fold (now : Int) :
    ∀ (targets : List Drop) (db : DB), Inv db →
      Inv (targets.foldl (fun acc d => purgeOne now d.drop_id acc) db) ∧
        DropsMono db (targets.foldl (fun acc d => purgeOne now d.drop_id acc) db) := by
  intro targets
  induction targets with
  | nil => intro db h; exact ⟨h, dropsMono_refl db⟩
  | cons t rest ih =>
      intro db h
      have h1 := inv_purgeOne now t.drop_id db h
      have h2 := ih (purgeOne now t.drop_id db) h1.1
      exact ⟨h2.1, dropsMono_trans h1.2 h2.2⟩

theorem inv_purge_ended_drops (now grace_seconds : Int) (db : DB)
    (h : Inv db) :
    Inv (purge_ended_drops now grace_seconds db).1 ∧
      DropsMono db (purge_ended_drops now grace_seconds db).1 :=
  inv_purge_fold now (db.drops.filter (purgeTargetMatch (now - grace_seconds)))
    db h

theorem key_not_mem_of_find?_none {l : List Drop} {i : String}
    (hg : (l.find? (fun d => d.drop_id == i)).isSome = false) :
    i ∉ l.map Drop.drop_id := by
  intro hmem
  obtain ⟨d, hd, hdi⟩ := List.mem_map.mp hmem
  have : (l.find? (fun d => d.drop_id == i)).isSome := by
    rw [List.find?_isSome]
    exact ⟨d, hd, by simp [hdi]⟩
  rw [hg] at this
  exact Bool.false_ne_true this

theorem inv_create_drop (now : Int) (i : String) (form : CreateDropForm)
    (db : DB) (h : Inv db) :
    Inv (create_drop now i form db).1 ∧
      DropsMono db (create_drop now i form db).1 := by
  unfold create_drop
  split
  · exact ⟨h, dropsMono_refl db⟩
  split
  · exact ⟨h, dropsMono_refl db⟩
  split
  · exact ⟨h, dropsMono_refl db⟩
  split
  · exact ⟨h, dropsMono_refl db⟩
  split
  · exact ⟨h, dropsMono_refl db⟩
  split
  · exact ⟨h, dropsMono_refl db⟩
  split
  · exact ⟨h, dropsMono_refl db⟩
  dsimp only
  split
  · exact ⟨⟨h.1, h.2⟩, dropsMono_of_drops_eq rfl⟩
  · next hguard =>
    constructor
    · constructor
      · rw [List.map_append, List.nodup_append]
        refine ⟨h.1, by simp, ?_⟩
        intro a ha hb
        simp at hb
        subst hb
        exact key_not_mem_of_find?_none (by simpa using hguard) ha
      · intro d hd
        rcases List.mem_append.mp hd with hd | hd
        · exact h.2 d hd
        · have hde : d = _ := List.mem_singleton.mp hd
          subst hde
          refine ⟨le_refl 0, ?_, ?_⟩
          · exact le_max_right _ 0
          · dsimp only
            split
            · exact Or.inr (Or.inl rfl)
            · exact Or.inl rfl
    · exact fun d hd => ⟨d, List.mem_append_left _ hd, rfl, le_refl _⟩

theorem inv_claim_drop (now : Int) (i u : String) (dh : Option String)
    (cid : String) (insOk updOk : Bool) (db : DB) (h : Inv db) :
    Inv (claim_drop now i u dh cid insOk updOk db).1 ∧
      DropsMono db (claim_drop now i u dh cid insOk updOk db).1 := by
  unfold claim_drop
  cases hfind : db.drops.find? (fun d => d.drop_id == i) with
  | none => exact ⟨h, dropsMono_refl db⟩
  | some drop =>
      simp only
      split
      · exact ⟨h, dropsMono_refl db⟩
      split
      · exact ⟨h, dropsMono_refl db⟩
      split
      · exact ⟨h, dropsMono_refl db⟩
      split
      · exact ⟨h, dropsMono_refl db⟩
      next hcap =>
      split
      · exact ⟨h, dropsMono_refl db⟩
      split
      · exact ⟨h, dropsMono_refl db⟩
      split
      · exact ⟨⟨h.1, h.2⟩, dropsMono_of_drops_eq rfl⟩
      · constructor
        · constructor
          · exact nodup_keys_map (fun d _ => claimIncRow_id now i d) h.1
          · refine wf_map (fun d hd hwf => ?_) h.2
            unfold claimIncRow
            split
            · next hdi =>
                have hdi' : d.drop_id = i := by simpa using hdi
                have hsame : db.drops.find? (fun x => x.drop_id == i) = some d :=
                  find?_key_of_mem h.1 hd hdi'
                rw [hfind] at hsame
                have hdd : d = drop := (Option.some.inj hsame).symm
                subst hdd
                have hcnt : 0 ≤ d.claimed_count := hwf.1
                have hcap2 : d.claimed_count < d.max_claims := lt_of_not_le hcap
                have hmax : d.max_claims ≤ max d.max_claims 0 := le_max_left _ _
                refine ⟨?_, ?_, hwf.2.2⟩
                · show (0 : Int) ≤ d.claimed_count + 1
                  omega
                · show d.claimed_count + 1 ≤ max d.max_claims 0
                  omega
            · exact hwf
        · exact mono_map (fun d _ => claimIncRow_id now i d)
            (fun d _ => claimIncRow_status now i d)

theorem inv_step {db db' : DB} (h : Inv db) (hs : Step db db') :
    Inv db' ∧ DropsMono db db' := by
  cases hs with
  | list now v sf db => exact inv_list_drops now v sf db h
  | get i db => exact ⟨h, dropsMono_refl db⟩
  | create now i form db => exact inv_create_drop now i form db h
  | claim now i u dh cid a b db => exact inv_claim_drop now i u dh cid a b db h
  | download now i tok db => exact ⟨h, dropsMono_refl db⟩
  | batchEnd now v ids db => exact inv_batch_end_drops now v ids db h
  | batchPurge now v ids db => exact inv_batch_purge_drops now v ids db h
  | expire now db => exact inv_expire_drops now db h
  | purgeSweep now g db => exact inv_purge_ended_drops now g db h
  | vendorRegistry vs db => exact ⟨⟨h.1, h.2⟩, dropsMono_of_drops_eq rfl⟩

theorem reachable_inv {db : DB} (h : Reachable db) : Inv db := by
  induction h with
  | init vendors base => exact ⟨by simp, by simp⟩
  | step hr hs ih => exact (inv_step ih hs).1

theorem claim_drop_not_found (now : Int) (i u : String) (dh : Option String)
    (cid : String) (a b : Bool) (db : DB)
    (h : db.drops.find? (fun d => d.drop_id == i) = none) :
    claim_drop now i u dh cid a b db = (db, .error .dropNotFound) := by
  unfold claim_drop; rw [h]

theorem claim_drop_has_ended (now : Int) (i u : String) (dh : Option String)
    (cid : String) (a b : Bool) (db : DB) {d : Drop}
    (hfind : db.drops.find? (fun x => x.drop_id == i) = some d)
    (h1 : d.status = drop_status.ENDED ∨ d.status = drop_status.PURGED) :
    claim_drop now i u dh cid a b db = (db, .error .dropEnded) := by
  unfold claim_drop; rw [hfind]; dsimp only; rw [if_pos h1]

theorem claim_drop_not_started (now : Int) (i u : String) (dh : Option String)
    (cid : String) (a b : Bool) (db : DB) {d : Drop}
    (hfind : db.drops.find? (fun x => x.drop_id == i) = some d)
    (h1 : ¬(d.status = drop_status.ENDED ∨ d.status = drop_status.PURGED))
    (h2 : now < d.start_at) :
    claim_drop now i u dh cid a b db = (db, .error .notStarted) := by
  unfold claim_drop; rw [hfind]; dsimp only; rw [if_neg h1, if_pos h2]

theorem claim_drop_expired (now : Int) (i u : String) (dh : Option String)
    (cid : String) (a b : Bool) (db : DB) {d : Drop}
    (hfind : db.drops.find? (fun x => x.drop_id == i) = some d)
    (h1 : ¬(d.status = drop_status.ENDED ∨ d.status = drop_status.PURGED))
    (h2 : d.start_at ≤ now) (h3 : d.end_at ≤ now) :
    claim_drop now i u dh cid a b db = (db, .error .expired) := by
  unfold claim_drop; rw [hfind]; dsimp only
  rw [if_neg h1, if_neg (not_lt.mpr h2), if_pos h3]

theorem claim_drop_sold_out (now : Int) (i u : String) (dh : Option String)
    (cid : String) (a b : Bool) (db : DB) {d : Drop}
    (hfind : db.drops.find? (fun x => x.drop_id == i) = some d)
    (h1 : ¬(d.status = drop_status.ENDED ∨ d.status = drop_status.PURGED))
    (h2 : d.start_at ≤ now) (h3 : now < d.end_at)
    (h4 : d.max_claims ≤ d.claimed_count) :
    claim_drop now i u dh cid a b db = (db, .error .soldOut) := by
  unfold claim_drop; rw [hfind]; dsimp only
  rw [if_neg h1, if_neg (not_lt.mpr h2), if_neg (not_le.mpr h3), if_pos h4]

theorem claim_drop_already_claimed (now : Int) (i u : String)
    (dh : Option String) (cid : String) (a b : Bool) (db : DB) {d : Drop}
    (hfind : db.drops.find? (fun x => x.drop_id == i) = some d)
    (h1 : ¬(d.status = drop_status.ENDED ∨ d.status = drop_status.PURGED))
    (h2 : d.start_at ≤ now) (h3 : now < d.end_at)
    (h4 : d.claimed_count < d.max_claims)
    (h5 : (db.drop_claims.find?
      (fun c => c.drop_id == i && c.user_id == u)).isSome = true) :
    claim_drop now i u dh cid a b db = (db, .error .alreadyClaimed) := by
  unfold claim_drop; rw [hfind]; dsimp only
  rw [if_neg h1, if_neg (not_lt.mpr h2), if_neg (not_le.mpr h3),
    if_neg (not_le.mpr h4), if_pos h5]

theorem claim_drop_success (now : Int) (i u : String) (dh : Option String)
    (cid : String) (db : DB) {d : Drop}
    (hfind : db.drops.find? (fun x => x.drop_id == i) = some d)
    (h1 : ¬(d.status = drop_status.ENDED ∨ d.status = drop_status.PURGED))
    (h2 : d.start_at ≤ now) (h3 : now < d.end_at)
    (h4 : d.claimed_count < d.max_claims)
    (h5 : db.drop_claims.find? (fun c => c.drop_id == i && c.user_id == u) = none) :
    claim_drop now i u dh cid true true db =
      ({ db with
          drops := db.drops.map (claimIncRow now i),
          drop_claims := db.drop_claims ++
            [{ claim_id := cid, drop_id := i, user_id := u,
               device_id_hash := dh, claimed_at := now }] },
       .ok { claim_id := cid, drop_id := i,
             download_url := rustReplace db.vps_base_url "/nft" "" ++
               "/api/drops/" ++ i ++ "/download?token=" ++ cid,
             expires_at := d.end_at, audio_sha256 := d.audio_sha256,
             audio_size_bytes := d.audio_size_bytes }) := by
  unfold claim_drop; rw [hfind]; dsimp only
  rw [if_neg h1, if_neg (not_lt.mpr h2), if_neg (not_le.mpr h3),
    if_neg (not_le.mpr h4), if_neg (by rw [h5]; exact fun hc => by cases hc),
    if_neg (by decide)]
  rw [if_neg (by decide)]

theorem expireRow_of_not_match {now : Int} {d : Drop}
    (h : expireMatch now d = false) : expireRow now d = d := by
  simp [expireRow, h]

theorem expireMatch_expireRow (now : Int) (d : Drop) :
    expireMatch now (expireRow now d) = false := by
  unfold expireRow
  split
  · simp [expireMatch, drop_status.ENDED, drop_status.SCHEDULED,
      drop_status.ACTIVE]
  · next h => simpa using h

theorem expireMatch_lazyExpireRow (now : Int) (d : Drop) :
    expireMatch now (lazyExpireRow now d) = false := by
  unfold lazyExpireRow
  split
  · simp [expireMatch, drop_status.ENDED, drop_status.SCHEDULED,
      drop_status.ACTIVE]
  · next h => simpa using h

theorem download_drop_never_404 (now : Int) (i : String) (tok : Option String)
    (db : DB) (e : DropError)
    (he : (download_drop now i tok db).2 = .error e) : statusCode e ≠ 404 := by
  unfold download_drop at he
  dsimp only at he
  cases tok with
  | none => injection he with h; subst h; decide
  | some t =>
    dsimp only at he
    cases hc : db.drop_claims.find?
        (fun c => c.claim_id == t && c.drop_id == i) with
    | none => rw [hc] at he; injection he with h; subst h; decide
    | some c =>
      rw [hc] at he
      cases hf : db.drops.find? (fun d => d.drop_id == i) with
      | none => rw [hf] at he; injection he with h; subst h; decide
      | some d =>
        rw [hf] at he
        dsimp only at he
        by_cases h1 : d.end_at ≤ now
        · rw [if_pos h1] at he; injection he with h; subst h; decide
        · rw [if_neg h1] at he
          by_cases h2 : db.blobs.contains d.drop_id = true
          · rw [if_pos h2] at he; exact absurd he (by simp)
          · rw [if_neg h2] at he; injection he with h; subst h; decide

theorem find?_key_vendor_of_mem {l : List Drop}
    (hnd : (l.map Drop.drop_id).Nodup) {d : Drop} (hd : d ∈ l)
    {i v : String} (hi : d.drop_id = i) (hv : d.vendor_stable_id = v) :
    l.find? (fun x => x.drop_id == i && x.vendor_stable_id == v) = some d := by
  cases hfind : l.find? (fun x => x.drop_id == i && x.vendor_stable_id == v) with
  | none =>
      have hall := List.find?_eq_none.mp hfind d hd
      simp [hi, hv] at hall
  | some x =>
      have hx := List.mem_of_find?_eq_some hfind
      have hp := List.find?_some hfind
      simp only [Bool.and_eq_true, beq_iff_eq] at hp
      have hxd : x = d := List.inj_on_of_nodup_map hnd hx hd (by rw [hp.1, hi])
      rw [hxd]

/-- C1 counterexample: `create_drop` accepts `max_claims = -1`, so the
state `dbBad` is reachable and its drop row has `claimed_count = 0` above
`max_claims = -1` — the claimed invariant `0 <= claimed_count <=
max_claims` fails on a reachable state. -/
theorem C1_counterexample :
    Reachable dbBad ∧
      ¬ ∀ d ∈ dbBad.drops,
        0 ≤ d.claimed_count ∧ d.claimed_count ≤ d.max_claims :=
  ⟨Reachable.step (Reachable.init _ _) (Step.create 1000 "DROP_B" badForm db0),
   by decide⟩

/-- C1 amended: in every reachable state every drop row satisfies
`0 <= claimed_count` and `claimed_count <= max(max_claims, 0)` — hence
`claimed_count <= max_claims` whenever the drop was created with a
nonnegative capacity; with a negative capacity (which `create_drop` never
rejects) the counter simply stays 0. -/
theorem C1_claimed_count_bounds {db : DB} (h : Reachable db) :
    ∀ d ∈ db.drops,
      0 ≤ d.claimed_count ∧ d.claimed_count ≤ max d.max_claims 0 :=
  fun d hd => ⟨((reachable_inv h).2 d hd).1, ((reachable_inv h).2 d hd).2.1⟩

/-- C1 witness: the bounds instantiated on the reachable state `dbA` at its
single row. -/
theorem C1_claimed_count_bounds_witness :
    0 ≤ dropA.claimed_count ∧ dropA.claimed_count ≤ max dropA.max_claims 0 :=
  C1_claimed_count_bounds
    (Reachable.step (Reachable.init _ _) (Step.create 1000 "DROP_A" okForm db0))
    dropA (by decide)

/-- C2: claim_drop checks its preconditions in exactly the source order
with the first failure winning — drop exists, status not ENDED/PURGED,
started, not expired, capacity left, not already claimed — each failure
with its own distinct error message, and a successful call returns the
fresh claim id. -/
theorem C2_claim_check_order (now : Int) (drop_id user_id : String)
    (dh : Option String) (cid : String) (db : DB)
    (hnd : (db.drops.map Drop.drop_id).Nodup) :
    ((∀ d ∈ db.drops, d.drop_id ≠ drop_id) →
      (claim_drop now drop_id user_id dh cid true true db).2 =
        .error .dropNotFound) ∧
    (∀ d ∈ db.drops, d.drop_id = drop_id →
      (d.status = drop_status.ENDED ∨ d.status = drop_status.PURGED) →
      (claim_drop now drop_id user_id dh cid true true db).2 =
        .error .dropEnded) ∧
    (∀ d ∈ db.drops, d.drop_id = drop_id →
      ¬(d.status = drop_status.ENDED ∨ d.status = drop_status.PURGED) →
      now < d.start_at →
      (claim_drop now drop_id user_id dh cid true true db).2 =
        .error .notStarted) ∧
    (∀ d ∈ db.drops, d.drop_id = drop_id →
      ¬(d.status = drop_status.ENDED ∨ d.status = drop_status.PURGED) →
      d.start_at ≤ now → d.end_at ≤ now →
      (claim_drop now drop_id user_id dh cid true true db).2 =
        .error .expired) ∧
    (∀ d ∈ db.drops, d.drop_id = drop_id →
      ¬(d.status = drop_status.ENDED ∨ d.status = drop_status.PURGED) →
      d.start_at ≤ now → now < d.end_at →
      d.max_claims ≤ d.claimed_count →
      (claim_drop now drop_id user_id dh cid true true db).2 =
        .error .soldOut) ∧
    (∀ d ∈ db.drops, d.drop_id = drop_id →
      ¬(d.status = drop_status.ENDED ∨ d.status = drop_status.PURGED) →
      d.start_at ≤ now → now < d.end_at →
      d.claimed_count < d.max_claims →
      (∃ c ∈ db.drop_claims, c.drop_id = drop_id ∧ c.user_id = user_id) →
      (claim_drop now drop_id user_id dh cid true true db).2 =
        .error .alreadyClaimed) ∧
    (∀ d ∈ db.drops, d.drop_id = drop_id →
      ¬(d.status = drop_status.ENDED ∨ d.status = drop_status.PURGED) →
      d.start_at ≤ now → now < d.end_at →
      d.claimed_count < d.max_claims →
      (∀ c ∈ db.drop_claims, ¬(c.drop_id = drop_id ∧ c.user_id = user_id)) →
      ∃ r, (claim_drop now drop_id user_id dh cid true true db).2 = .ok r ∧
        r.claim_id = cid) ∧
    ([DropError.dropNotFound, DropError.dropEnded, DropError.notStarted,
      DropError.expired, DropError.soldOut,
      DropError.alreadyClaimed].map errorMessage).Nodup := by
  refine ⟨?_, ?_, ?_, ?_, ?_, ?_, ?_, by decide⟩
  · intro h
    rw [claim_drop_not_found now drop_id user_id dh cid true true db
      (List.find?_eq_none.mpr (fun d hd => by simpa using h d hd))]
  · intro d hd hid hst
    rw [claim_drop_has_ended now drop_id user_id dh cid true true db
      (find?_key_of_mem hnd hd hid) hst]
  · intro d hd hid h1 h2
    rw [claim_drop_not_started now drop_id user_id dh cid true true db
      (find?_key_of_mem hnd hd hid) h1 h2]
  · intro d hd hid h1 h2 h3
    rw [claim_drop_expired now drop_id user_id dh cid true true db
      (find?_key_of_mem hnd hd hid) h1 h2 h3]
  · intro d hd hid h1 h2 h3 h4
    rw [claim_drop_sold_out now drop_id user_id dh cid true true db
      (find?_key_of_mem hnd hd hid) h1 h2 h3 h4]
  · intro d hd hid h1 h2 h3 h4 hex
    obtain ⟨c, hc, hc1, hc2⟩ := hex
    rw [claim_drop_already_claimed now drop_id user_id dh cid true true db
      (find?_key_of_mem hnd hd hid) h1 h2 h3 h4
      (List.find?_isSome.mpr ⟨c, hc, by simp [hc1, hc2]⟩)]
  · intro d hd hid h1 h2 h3 h4 h5
    rw [claim_drop_success now drop_id user_id dh cid db
      (find?_key_of_mem hnd hd hid) h1 h2 h3 h4
      (List.find?_eq_none.mpr (fun c hc => by simpa using h5 c hc))]
    exact ⟨_, rfl, rfl⟩

/-- C2 witness: in dbB (capacity 1, already claimed once) a claim by u2 at
time 1000 lands in the sold-out case. -/
theorem C2_claim_check_order_witness :
    (claim_drop 1000 "DROP_A" "u2" none "c9" true true dbB).2 =
      .error .soldOut :=
  (C2_claim_check_order 1000 "DROP_A" "u2" none "c9" dbB (by decide)).2.2.2.2.1
    { dropA with claimed_count := 1, updated_at := 1000 } (by decide)
    (by decide) (by decide) (by decide) (by decide) (by decide)

/-- C3: evaluation of claim_drop at the failing schedule — the claim
INSERT succeeds, the subsequent claimed_count UPDATE fails.  The call
returns a 500 DB error, yet the claim ledger now holds the inserted row
while the drop row is unchanged: the two writes are not atomic because no
transaction wraps them. -/
theorem C3_insert_without_increment :
    (claim_drop 1000 "DROP_A" "u1" none "c1" true false dbA).2 =
      .error .dbError ∧
    (claim_drop 1000 "DROP_A" "u1" none "c1" true false dbA).1.drop_claims =
      [{ claim_id := "c1", drop_id := "DROP_A", user_id := "u1",
         device_id_hash := none, claimed_at := 1000 }] ∧
    dbA.drop_claims = [] ∧
    (claim_drop 1000 "DROP_A" "u1" none "c1" true false dbA).1.drops =
      dbA.drops := by decide

/-- C4 counterexample: with max_claims = 1 and u1 already holding the only
claim, a second claim by u1 is rejected as "No more claims available"
(sold out), not "Already claimed" — the capacity check runs before the
duplicate check. -/
theorem C4_counterexample :
    (claim_drop 1000 "DROP_A" "u1" none "c2" true true dbB).2 =
      .error .soldOut ∧
    DropError.soldOut ≠ DropError.alreadyClaimed ∧
    errorMessage .soldOut = "No more claims available" ∧
    errorMessage .alreadyClaimed = "Already claimed" := by decide

/-- C4 amended scenario: the first claim by u1 succeeds and returns the
download URL built from the claim id; the second claim by u1 and the claim
by u2 both fail with the sold-out error, since the drop is at capacity and
the capacity check precedes the duplicate check. -/
theorem C4_scenario :
    (match (claim_drop 1000 "DROP_A" "u1" none "c1" true true dbA).2 with
     | .ok r => some (r.claim_id, r.download_url)
     | .error _ => none) =
      some ("c1", "https://host/api/drops/DROP_A/download?token=c1") ∧
    (claim_drop 1000 "DROP_A" "u1" none "c2" true true dbB).2 =
      .error .soldOut ∧
    (claim_drop 1000 "DROP_A" "u2" none "c3" true true dbB).2 =
      .error .soldOut := by decide

/-- C5: download(drop_id, token) succeeds iff a DropClaim row matches
(claim_id = token and drop_id matches) and `now < end_at` of the drop —
under the stated side conditions that the drop row and its stored bytes
exist.  The hypotheses place no constraint on the drop's status column, so
the equivalence holds verbatim for a drop administratively ENDED before
its natural end_at: prior claimants can download it until end_at passes. -/
theorem C5_download_iff (now : Int) (i tok : String) (db : DB) {d : Drop}
    (hnd : (db.drops.map Drop.drop_id).Nodup)
    (hd : d ∈ db.drops) (hi : d.drop_id = i) (hblob : i ∈ db.blobs) :
    (∃ r, (download_drop now i (some tok) db).2 = .ok r) ↔
      ((∃ c ∈ db.drop_claims, c.claim_id = tok ∧ c.drop_id = i) ∧
        now < d.end_at) := by
  unfold download_drop
  dsimp only
  cases hc : db.drop_claims.find?
      (fun c => c.claim_id == tok && c.drop_id == i) with
  | none =>
      constructor
      · rintro ⟨r, hr⟩; exact absurd hr (by simp)
      · rintro ⟨⟨c, hcm, h1, h2⟩, _⟩
        have hall := List.find?_eq_none.mp hc c hcm
        simp [h1, h2] at hall
  | some c =>
      rw [find?_key_of_mem hnd hd hi]
      dsimp only
      by_cases he : d.end_at ≤ now
      · rw [if_pos he]
        constructor
        · rintro ⟨r, hr⟩; exact absurd hr (by simp)
        · rintro ⟨_, hlt⟩; omega
      · rw [if_neg he]
        have hcont : db.blobs.contains d.drop_id = true := by
          rw [hi]
          simpa using hblob
        rw [if_pos hcont]
        constructor
        · intro _
          have hp := List.find?_some hc
          simp only [Bool.and_eq_true, beq_iff_eq] at hp
          exact ⟨⟨c, List.mem_of_find?_eq_some hc, hp.1, hp.2⟩, by omega⟩
        · intro _
          exact ⟨_, rfl⟩

/-- C5 witness: in dbEnd the drop was administratively ENDED at 2000 while
its natural end_at 4600 has not passed; the equivalence holds there for
u1's token c1. -/
theorem C5_download_iff_witness :
    (∃ r, (download_drop 3000 "DROP_A" (some "c1") dbEnd).2 = .ok r) ↔
      ((∃ c ∈ dbEnd.drop_claims, c.claim_id = "c1" ∧ c.drop_id = "DROP_A") ∧
        (3000 : Int) < dropAEnd.end_at) :=
  C5_download_iff 3000 "DROP_A" "c1" dbEnd (d := dropAEnd) (by decide)
    (by decide) (by decide) (by decide)

/-- C6 counterexample: get_drop performs no lazy-expiry update — DROP_E is
overdue at time 2000 (its row matches the expiry predicate) yet get_drop
leaves the state unchanged and returns the row still ACTIVE with ended_at
unset. -/
theorem C6_counterexample :
    (get_drop "DROP_E" dbE).1 = dbE ∧
    dbE.drops.map (fun d => (expireMatch 2000 d, d.status, d.ended_at)) =
      [(true, drop_status.ACTIVE, none)] ∧
    (match (get_drop "DROP_E" dbE).2 with
     | .ok d => some (d.status, d.ended_at)
     | .error _ => none) = some (drop_status.ACTIVE, none) :=
  ⟨rfl, by decide, by decide⟩

/-- C6 amended: only list_drops runs the lazy-expiry update (doing so
before selecting its result rows, so no returned row still matches the
expiry predicate); get_drop performs no update at all and returns the
stored row as is. -/
theorem C6_lazy_expiry_list_only (now : Int) (v : String) (sf : Option Int)
    (i : String) (db : DB) :
    (list_drops now v sf db).1 =
      { db with drops := db.drops.map (lazyExpireRow now) } ∧
    (∀ d ∈ (list_drops now v sf db).2, expireMatch now d = false) ∧
    (get_drop i db).1 = db := by
  refine ⟨rfl, ?_, rfl⟩
  intro d hd
  have hd' : d ∈ db.drops.map (lazyExpireRow now) := by
    unfold list_drops at hd
    cases sf with
    | some s => exact (List.mem_filter.mp hd).1
    | none => exact (List.mem_filter.mp hd).1
  obtain ⟨a, _, rfl⟩ := List.mem_map.mp hd'
  exact expireMatch_lazyExpireRow now a

/-- C6 witness: the amended statement instantiated on dbE at time 2000,
projected to its get_drop component. -/
theorem C6_lazy_expiry_list_only_witness :
    (get_drop "DROP_E" dbE).1 = dbE :=
  (C6_lazy_expiry_list_only 2000 "V1" none "DROP_E" dbE).2.2

/-- C7: along any operation from a reachable state, every drop row
survives with its id and a status no earlier in SCHEDULED -> ACTIVE ->
ENDED -> PURGED; a row that is ENDED or PURGED never returns to SCHEDULED
or ACTIVE. -/
theorem C7_status_monotonic {db db' : DB} (hr : Reachable db)
    (hs : Step db db') :
    ∀ d ∈ db.drops, ∃ d' ∈ db'.drops, d'.drop_id = d.drop_id ∧
      d.status ≤ d'.status ∧
      ((d.status = drop_status.ENDED ∨ d.status = drop_status.PURGED) →
        (d'.status = drop_status.ENDED ∨ d'.status = drop_status.PURGED)) := by
  intro d hd
  have hinv := reachable_inv hr
  have hstep := inv_step hinv hs
  obtain ⟨d', hd', hi, hle⟩ := hstep.2 d hd
  refine ⟨d', hd', hi, hle, ?_⟩
  intro hcase
  have hwf' := (hstep.1.2 d' hd').2.2
  simp only [drop_status.SCHEDULED, drop_status.ACTIVE, drop_status.ENDED,
    drop_status.PURGED] at hwf' hcase ⊢
  omega

/-- C7 witness: monotonicity across the expiry sweep at time 5000 applied
to the reachable state dbA at its single ACTIVE row. -/
theorem C7_status_monotonic_witness :
    ∃ d' ∈ (expire_drops 5000 dbA).1.drops, d'.drop_id = dropA.drop_id ∧
      dropA.status ≤ d'.status ∧
      ((dropA.status = drop_status.ENDED ∨ dropA.status = drop_status.PURGED) →
        (d'.status = drop_status.ENDED ∨ d'.status = drop_status.PURGED)) :=
  C7_status_monotonic
    (Reachable.step (Reachable.init _ _) (Step.create 1000 "DROP_A" okForm db0))
    (Step.expire 5000 dbA) dropA (by decide)

/-- C8 counterexample: in dbB the drop id UNKNOWN names no drop row, yet a
download against it returns 401 Invalid token — not the 404 the claim
asserts for an unknown drop_id (the claim lookup keyed on both claim_id
and drop_id fails first). -/
theorem C8_counterexample :
    (∀ d ∈ dbB.drops, d.drop_id ≠ "UNKNOWN") ∧
    (download_drop 1000 "UNKNOWN" (some "c1") dbB).2 = .error .invalidToken ∧
    statusCode .invalidToken = 401 ∧ statusCode .invalidToken ≠ 404 := by
  decide

/-- C8 amended: on the download endpoint a bad (unknown or mismatched)
token yields 401 Invalid token and a missing token 401 Token required; a
request naming an unknown drop_id also lands in the 401 Invalid token
case, because the claim lookup is keyed on (claim_id, drop_id) and fails
first — the endpoint never produces a 404. -/
theorem C8_download_error_codes (now : Int) (i tok : String) (db : DB)
    (hnone : ∀ c ∈ db.drop_claims, ¬(c.claim_id = tok ∧ c.drop_id = i)) :
    (download_drop now i (some tok) db).2 = .error .invalidToken ∧
    statusCode .invalidToken = 401 ∧
    (download_drop now i none db).2 = .error .tokenRequired ∧
    statusCode .tokenRequired = 401 ∧
    ∀ (tokq : Option String) (e : DropError),
      (download_drop now i tokq db).2 = .error e → statusCode e ≠ 404 := by
  refine ⟨?_, rfl, rfl, rfl,
    fun tokq e he => download_drop_never_404 now i tokq db e he⟩
  unfold download_drop
  dsimp only
  rw [List.find?_eq_none.mpr (fun c hc => by simpa using hnone c hc)]

/-- C8 witness: the amended theorem applied in dbB to an unknown token
against an existing drop. -/
theorem C8_download_error_codes_witness :
    (download_drop 1000 "DROP_A" (some "c9") dbB).2 = .error .invalidToken :=
  (C8_download_error_codes 1000 "DROP_A" "c9" dbB (by decide)).1

/-- C9: the expiry sweep is idempotent — a second run at the same time
instant leaves the drops table exactly as the first run left it (no
ended_at set by the first run is overwritten) and reports 0 rows
affected. -/
theorem C9_expire_sweep_idempotent (now : Int) (db : DB) :
    (expire_drops now (expire_drops now db).1).1 = (expire_drops now db).1 ∧
      (expire_drops now (expire_drops now db).1).2 = 0 := by
  constructor
  · show ({ db with
        drops := (db.drops.map (expireRow now)).map (expireRow now) } : DB) =
      { db with drops := db.drops.map (expireRow now) }
    have hmm : (db.drops.map (expireRow now)).map (expireRow now) =
        db.drops.map (expireRow now) := by
      rw [List.map_map]
      refine List.map_congr_left (fun d _ => ?_)
      simp only [Function.comp_apply]
      exact expireRow_of_not_match (expireMatch_expireRow now d)
    rw [hmm]
  · show ((db.drops.map (expireRow now)).filter (expireMatch now)).length = 0
    rw [List.length_eq_zero, List.filter_eq_nil_iff]
    intro a ha
    obtain ⟨d, _, rfl⟩ := List.mem_map.mp ha
    simp [expireMatch_expireRow]

/-- C10: batch_purge on a drop id whose row is already PURGED (and belongs
to the named vendor) reports true for that id and overwrites the row's
purged_at and updated_at with the current time — the final PURGED UPDATE
is guarded only by drop_id, not by status. -/
theorem C10_batch_purge_repurge (now : Int) (v i : String) (db : DB)
    {d : Drop} (hnd : (db.drops.map Drop.drop_id).Nodup)
    (hd : d ∈ db.drops) (hi : d.drop_id = i) (hv : d.vendor_stable_id = v)
    (hstatus : d.status = drop_status.PURGED) :
    (batch_purge_drops now v [i] db).2 = [(i, true)] ∧
    { d with status := drop_status.PURGED, purged_at := some now,
             updated_at := now } ∈ (batch_purge_drops now v [i] db).1.drops := by
  have hno : ∀ x ∈ db.drops, batchEndMatch v i x = false := by
    intro x hx
    by_cases hxi : x.drop_id = i
    · have hxd : x = d := List.inj_on_of_nodup_map hnd hx hd (by rw [hxi, hi])
      subst hxd
      simp [batchEndMatch, hstatus, drop_status.PURGED, drop_status.SCHEDULED,
        drop_status.ACTIVE]
    · simp [batchEndMatch, hxi]
  have hmap1 : db.drops.map (forceEndRow now v i) = db.drops := by
    have hcg : ∀ x ∈ db.drops, forceEndRow now v i x = id x := by
      intro x hx
      simp [forceEndRow, hno x hx]
    rw [List.map_congr_left hcg, List.map_id]
  have hfd : (db.drops.map (forceEndRow now v i)).find?
      (fun x => x.drop_id == i && x.vendor_stable_id == v) = some d := by
    rw [hmap1]; exact find?_key_vendor_of_mem hnd hd hi hv
  have hlen : 0 < ((db.drops.map (forceEndRow now v i)).filter
      (fun x => x.drop_id == i)).length := by
    rw [hmap1]
    exact List.length_pos.mpr (List.ne_nil_of_mem
      (List.mem_filter.mpr ⟨hd, by simp [hi]⟩))
  unfold batch_purge_drops
  simp only [List.foldl_cons, List.foldl_nil]
  unfold batchPurgeOne
  dsimp only
  rw [hfd]
  dsimp only
  constructor
  · simp [hlen]
  · have hmem := List.mem_map_of_mem (purgeRow now i) hd
    have heq : purgeRow now i d =
        { d with status := drop_status.PURGED, purged_at := some now,
                 updated_at := now } := by
      simp [purgeRow, hi]
    rw [heq] at hmem
    rw [hmap1]
    exact hmem

/-- C10 witness: re-purging the already-purged DROP_A in dbP at time 3000
reports true and restamps purged_at/updated_at. -/
theorem C10_batch_purge_repurge_witness :
    (batch_purge_drops 3000 "V1" ["DROP_A"] dbP).2 = [("DROP_A", true)] ∧
    { dropAP with status := drop_status.PURGED,
                  purged_at := some (3000 : Int),
                  updated_at := (3000 : Int) } ∈
      (batch_purge_drops 3000 "V1" ["DROP_A"] dbP).1.drops :=
  C10_batch_purge_repurge 3000 "V1" "DROP_A" dbP (d := dropAP) (by decide)
    (by decide) (by decide) (by decide) (by decide)

end DropsApi
